import Mathlib

/-!
Verification development for `data_retrieval/map_worker.py` of the
covid-19-tracker-eire repository.

The script drives the Datawrapper REST API to create or update a choropleth
map of Ireland.  We embed its data model and control flow shallowly:

* the pure transcoding loop of `DataWrapperMap.update_map_data` becomes a
  fold over the parsed CSV rows (`updateMapDataPayload`);
* the per-line behaviour of Python's `csv.reader` (default dialect,
  non-strict) is modelled at character level by `csvScan`/`parseLine`;
* `datetime.strftime("%m/%d/%Y, %H:%M:%S %p")` becomes `strftimeNow`;
* the stateful workflow (in-memory `map_id`, the `MAP_ID` entry of
  `config.ini`, the HTML artifact file, the input CSV) becomes a record
  `MapState`; every remote call is an event in a trace, the remote service
  is an environment `RemoteEnv` giving each call its response, and the
  unguarded `response.json()[...]` accesses become `Except PyErr`
  (an `HTTPError` raised by `raise_for_status` is always caught and only
  logged, so HTTP statuses never influence control flow; logging itself is
  not modelled).
-/

namespace MapWorker

/-- Model of Python's `sep.join(fields)` for string fields, as used in
`', '.join(row)` inside `update_map_data`. -/
def pyJoin (sep : String) : List String → String
  | [] => ""
  | [x] => x
  | x :: y :: xs => x ++ sep ++ pyJoin sep (y :: xs)

/-- The transcoding loop of `DataWrapperMap.update_map_data`:
`county_results` starts empty and for each row yielded by `csv.reader`
the row's fields joined by `", "` plus a newline are appended. -/
def updateMapDataPayload (rows : List (List String)) : String :=
  rows.foldl (fun acc row => acc ++ pyJoin ", " row ++ "\n") ""

/-- Concatenation of a list of strings (spec-side helper used to state the
claimed shape of the payload). -/
def concatAll : List String → String
  | [] => ""
  | s :: ss => s ++ concatAll ss

/-- The payload shape claimed by the specification for a CSV whose rows are
pairs `(county, cases)`: each row's fields joined by `", "`, each row
terminated by a newline (as in the spec's example
`"CARLOW, 5\nCAVAN, 5\n"`). -/
def specPayload (rows : List (String × String)) : String :=
  concatAll (rows.map fun p => p.1 ++ ", " ++ p.2 ++ "\n")

/-- Parser state of Python's `_csv` reader restricted to one line:
`fieldStart` = START_FIELD, `quoted` = IN_QUOTED_FIELD,
`afterQuote` = IN_FIELD (an unquoted field, or the tail of a field after its
closing quote). -/
inductive CsvMode
  | fieldStart
  | quoted
  | afterQuote
  deriving DecidableEq, Repr

/-- Prepend a character onto the current (first) field of an already parsed
suffix of fields. -/
def consCur (c : Char) : List (List Char) → List (List Char)
  | [] => [[c]]
  | f :: fs => (c :: f) :: fs

/-- Character-level model of Python's `csv.reader` on a single line, default
dialect (`delimiter=','`, `quotechar='"'`, `doublequote=True`,
`strict=False`): a field starting with `"` is quoted, the delimiter is
literal inside quotes, `""` inside quotes is an escaped quote, characters
after a closing quote are appended to the field, and a quote inside an
unquoted field is literal. -/
def csvScan : CsvMode → List Char → List (List Char)
  | _, [] => [[]]
  | CsvMode.fieldStart, c :: rest =>
    if c = '"' then csvScan CsvMode.quoted rest
    else if c = ',' then [] :: csvScan CsvMode.fieldStart rest
    else consCur c (csvScan CsvMode.afterQuote rest)
  | CsvMode.quoted, [c] =>
    if c = '"' then csvScan CsvMode.afterQuote []
    else consCur c (csvScan CsvMode.quoted [])
  | CsvMode.quoted, c :: c2 :: rest2 =>
    if c = '"' then
      if c2 = '"' then consCur '"' (csvScan CsvMode.quoted rest2)
      else csvScan CsvMode.afterQuote (c2 :: rest2)
    else consCur c (csvScan CsvMode.quoted (c2 :: rest2))
  | CsvMode.afterQuote, c :: rest =>
    if c = ',' then [] :: csvScan CsvMode.fieldStart rest
    else consCur c (csvScan CsvMode.afterQuote rest)

/-- The list of fields `csv.reader` yields for one line (a blank line yields
the empty row). -/
def parseLine : List Char → List (List Char)
  | [] => []
  | l => csvScan CsvMode.fieldStart l

/-- Character-level model of `', '.join(row)`. -/
def joinFields : List (List Char) → List Char
  | [] => []
  | [f] => f
  | f :: g :: fs => f ++ ',' :: ' ' :: joinFields (g :: fs)

/-- What one raw CSV line contributes to the pushed payload (before the
trailing newline): the line is parsed by `csv.reader` and the parsed fields
are rejoined by `", "`. -/
def transcodeLine (l : List Char) : List Char :=
  joinFields (parseLine l)

/-- Zero-padded two-digit decimal rendering, as produced by the `strftime`
fields `%m`, `%d`, `%H`, `%M`, `%S` for values below 100. -/
def pad2 (n : Nat) : List Char :=
  [Nat.digitChar (n / 10), Nat.digitChar (n % 10)]

/-- Four-digit decimal rendering, as produced by `%Y` for years
1000..9999. -/
def pad4 (n : Nat) : List Char :=
  [Nat.digitChar (n / 1000), Nat.digitChar (n / 100 % 10),
   Nat.digitChar (n / 10 % 10), Nat.digitChar (n % 10)]

/-- The `%p` field of `strftime` in the C locale: `AM` for hours 0..11,
`PM` for hours 12..23. -/
def meridiem (hour : Nat) : List Char :=
  if hour < 12 then ['A', 'M'] else ['P', 'M']

/-- Model of `datetime.now().strftime("%m/%d/%Y, %H:%M:%S %p")` in
`set_last_update_timestamp` (note the source combines the 24-hour field
`%H` with `%p`). -/
def strftimeNow (month day year hour minute second : Nat) : List Char :=
  pad2 month ++ ['/'] ++ pad2 day ++ ['/'] ++ pad4 year ++ [',', ' '] ++
  pad2 hour ++ [':'] ++ pad2 minute ++ [':'] ++ pad2 second ++ [' '] ++
  meridiem hour

/-- The annotation `notes` value patched by `set_last_update_timestamp`:
the literal `Last update:` followed by the formatted timestamp. -/
def lastUpdateNotes (month day year hour minute second : Nat) : List Char :=
  String.toList "Last update:" ++ strftimeNow month day year hour minute second

/-- Decidable check that a character string has the shape
`MM/DD/YYYY, HH:MM:SS (AM|PM)` with every numeric field exactly two digits
(four for the year). -/
def timestampShape : List Char → Bool
  | [m1, m2, '/', d1, d2, '/', y1, y2, y3, y4, ',', ' ',
     h1, h2, ':', mi1, mi2, ':', s1, s2, ' ', p1, 'M'] =>
    m1.isDigit && m2.isDigit && d1.isDigit && d2.isDigit &&
    y1.isDigit && y2.isDigit && y3.isDigit && y4.isDigit &&
    h1.isDigit && h2.isDigit && mi1.isDigit && mi2.isDigit &&
    s1.isDigit && s2.isDigit && (p1 == 'A' || p1 == 'P')
  | _ => false

/-- The Python exceptions that can escape the workflow methods: the
unguarded dictionary accesses on `response.json()` (a missing key raises
`KeyError`; a non-JSON body raising in `json()` is folded into the same
constructor). -/
inductive PyErr
  | keyError
  deriving DecidableEq, Repr

/-- Local state the script touches: the in-memory `self.map_id`, the
`MAP_ID` entry of `config.ini` on disk, the contents of the HTML artifact
file, and the rows of the input CSV file (as `csv.reader` yields them). -/
structure MapState where
  mapId : String
  configMapId : String
  htmlFile : String
  csvRows : List (List String)
  deriving DecidableEq, Repr

/-- Response to the chart-creation POST: its HTTP status and the optional
`id` member of its JSON body. -/
structure CreateResp where
  status : Nat
  idField : Option String
  deriving DecidableEq, Repr

/-- Response carrying only an HTTP status (its body is never read by the
script). -/
structure SimpleResp where
  status : Nat
  deriving DecidableEq, Repr

/-- Response to the publish POST: its HTTP status and the optional
`data.metadata.publish.embed-codes.embed-method-responsive` member of its
JSON body (`none` when any level of that path is missing). -/
structure PublishResp where
  status : Nat
  embedResponsive : Option String
  deriving DecidableEq, Repr

/-- The remote Datawrapper service, one response per call the script can
make during a run. -/
structure RemoteEnv where
  createResp : CreateResp
  configureResp : SimpleResp
  tooltipResp : SimpleResp
  dataResp : SimpleResp
  timestampResp : SimpleResp
  publishResp : PublishResp
  deriving DecidableEq, Repr

/-- Observable actions of one run, in order: each remote call (recording
the map identifier it is addressed to, and for the data PUT also the body
it sends) and the write of the HTML artifact. -/
inductive Step
  | create
  | configure (mapId : String)
  | tooltip (mapId : String)
  | pushData (mapId : String) (payload : String)
  | stamp (mapId : String)
  | publish (mapId : String)
  | writeHtml
  deriving DecidableEq, Repr

/-- Result of a workflow fragment: the trace of actions it performed and
either the updated local state or the uncaught Python exception. -/
abbrev RunResult := List Step × Except PyErr MapState

/-- Sequencing of workflow fragments: Python runs the next statement only
when the previous one did not raise; the traces concatenate. -/
def seqStep (r : RunResult) (f : MapState → RunResult) : RunResult :=
  match r with
  | (tr, Except.error e) => (tr, Except.error e)
  | (tr, Except.ok st) => (tr ++ (f st).1, (f st).2)

/-- Model of `DataWrapperMap.set_map_id`: writes the in-memory `map_id`
into the `MAP_ID` entry of `config.ini`. -/
def set_map_id (st : MapState) : MapState :=
  { st with configMapId := st.mapId }

/-- Model of `DataWrapperMap.create_choropleth`: POSTs the creation
request; a non-2xx status only raises a caught-and-logged `HTTPError`;
then `self.map_id = response.json()['id']` is executed unconditionally
(raising `KeyError` when the body has no `id`), followed by
`set_map_id`. -/
def create_choropleth (st : MapState) (env : RemoteEnv) : RunResult :=
  match env.createResp.idField with
  | none => ([Step.create], Except.error PyErr.keyError)
  | some i => ([Step.create], Except.ok (set_map_id { st with mapId := i }))

/-- Model of `DataWrapperMap.configure_map_settings`: PATCHes the full
metadata block; any `HTTPError` is caught and logged, the local state is
untouched. -/
def configure_map_settings (st : MapState) (_env : RemoteEnv) : RunResult :=
  ([Step.configure st.mapId], Except.ok st)

/-- Model of `DataWrapperMap.add_map_tooltip`: PATCHes the tooltip-only
metadata block; any `HTTPError` is caught and logged, the local state is
untouched. -/
def add_map_tooltip (st : MapState) (_env : RemoteEnv) : RunResult :=
  ([Step.tooltip st.mapId], Except.ok st)

/-- Model of `DataWrapperMap.update_map_data`: reads the CSV, builds the
payload with the transcoding loop and PUTs it; any `HTTPError` is caught
and logged, the local state is untouched. -/
def update_map_data (st : MapState) (_env : RemoteEnv) : RunResult :=
  ([Step.pushData st.mapId (updateMapDataPayload st.csvRows)], Except.ok st)

/-- Model of `DataWrapperMap.set_last_update_timestamp`: PATCHes the
annotation notes; any `HTTPError` is caught and logged, the local state is
untouched. -/
def set_last_update_timestamp (st : MapState) (_env : RemoteEnv) : RunResult :=
  ([Step.stamp st.mapId], Except.ok st)

/-- Model of `DataWrapperMap.publish_map`: calls
`set_last_update_timestamp`, POSTs the publish request (a non-2xx status
only raises a caught-and-logged `HTTPError`), then unconditionally
extracts the responsive embed snippet from the response body (raising
`KeyError` when absent) and writes it to the HTML artifact file. -/
def publish_map (st : MapState) (env : RemoteEnv) : RunResult :=
  seqStep (set_last_update_timestamp st env) fun st1 =>
    match env.publishResp.embedResponsive with
    | none => ([Step.publish st1.mapId], Except.error PyErr.keyError)
    | some snippet =>
      ([Step.publish st1.mapId, Step.writeHtml],
       Except.ok { st1 with htmlFile := snippet })

/-- Model of `DataWrapperMap.run_map_creation`: create, configure,
tooltip, data push, publish, each run only if the previous statement did
not raise. -/
def run_map_creation (st : MapState) (env : RemoteEnv) : RunResult :=
  seqStep (create_choropleth st env) fun s1 =>
  seqStep (configure_map_settings s1 env) fun s2 =>
  seqStep (add_map_tooltip s2 env) fun s3 =>
  seqStep (update_map_data s3 env) fun s4 =>
  publish_map s4 env

/-- Model of `DataWrapperMap.run_map_update`: data push then publish. -/
def run_map_update (st : MapState) (env : RemoteEnv) : RunResult :=
  seqStep (update_map_data st env) fun s1 =>
  publish_map s1 env

/-- Model of the `DataWrapperMap` constructor: `self.map_id` is read from
the `MAP_ID` entry of the configuration store; the file states are the
files on disk. -/
def initFromConfig (configMapId htmlFile : String)
    (csvRows : List (List String)) : MapState :=
  { mapId := configMapId, configMapId := configMapId,
    htmlFile := htmlFile, csvRows := csvRows }

/-- Model of `main` after argument parsing and construction: the mode
string dispatches to creation or update; any other value takes no action
at all. -/
def mainRun (runType : String) (st : MapState) (env : RemoteEnv) : RunResult :=
  if runType = "create" then run_map_creation st env
  else if runType = "update" then run_map_update st env
  else ([], Except.ok st)

/-- Exit status of the process: 0 when no exception escaped `main`,
nonzero (CPython uses 1 for an uncaught traceback) otherwise. -/
def processExit : Except PyErr MapState → Nat
  | Except.ok _ => 0
  | Except.error _ => 1

lemma updateMapDataPayload_foldl (rows : List (List String)) (acc : String) :
    rows.foldl (fun a row => a ++ pyJoin ", " row ++ "\n") acc
      = acc ++ concatAll (rows.map fun row => pyJoin ", " row ++ "\n") := by
  induction rows generalizing acc with
  | nil => simp [concatAll]
  | cons r rs ih =>
    rw [List.foldl_cons, ih]
    simp only [List.map_cons, concatAll, String.append_assoc]

/-- C1: for every input CSV whose rows are pairs `(c, n)`, the payload
`update_map_data` sends is each row's fields joined by `", "` followed by a
newline, rows in original order, none reordered, dropped or deduplicated;
in particular rows `[("CARLOW","5"),("CAVAN","5")]` give
`"CARLOW, 5\nCAVAN, 5\n"`. -/
theorem c1_pushdata_payload :
    (∀ rows : List (String × String),
      updateMapDataPayload (rows.map fun p => [p.1, p.2]) = specPayload rows) ∧
    updateMapDataPayload [["CARLOW", "5"], ["CAVAN", "5"]]
      = "CARLOW, 5\nCAVAN, 5\n" := by
  refine ⟨fun rows => ?_, by decide⟩
  rw [updateMapDataPayload, updateMapDataPayload_foldl, String.empty_append]
  simp only [specPayload]
  induction rows with
  | nil => rfl
  | cons p ps ih =>
    simp only [List.map_cons, concatAll, ih, pyJoin, String.append_assoc]

lemma digitChar_isDigit (n : Nat) (h : n < 10) :
    (Nat.digitChar n).isDigit = true := by
  interval_cases n <;> decide

/-- C7: for every wall-clock time (any valid local date and time),
`set_last_update_timestamp` patches the map's annotation notes to the
string `Last update:` followed by the current local time, and the
formatted time matches the shape `MM/DD/YYYY, HH:MM:SS (AM|PM)` with every
numeric field zero-padded. -/
theorem c7_timestamp_format (month day year hour minute second : Nat)
    (hm : month ≤ 12) (hd : day ≤ 31) (hy1 : 1000 ≤ year) (hy2 : year ≤ 9999)
    (hh : hour < 24) (hmi : minute < 60) (hs : second < 60) :
    lastUpdateNotes month day year hour minute second
      = String.toList "Last update:"
        ++ strftimeNow month day year hour minute second ∧
    timestampShape (strftimeNow month day year hour minute second) = true := by
  refine ⟨rfl, ?_⟩
  have h1 := digitChar_isDigit (month / 10) (by omega)
  have h2 := digitChar_isDigit (month % 10) (by omega)
  have h3 := digitChar_isDigit (day / 10) (by omega)
  have h4 := digitChar_isDigit (day % 10) (by omega)
  have h5 := digitChar_isDigit (year / 1000) (by omega)
  have h6 := digitChar_isDigit (year / 100 % 10) (by omega)
  have h7 := digitChar_isDigit (year / 10 % 10) (by omega)
  have h8 := digitChar_isDigit (year % 10) (by omega)
  have h9 := digitChar_isDigit (hour / 10) (by omega)
  have h10 := digitChar_isDigit (hour % 10) (by omega)
  have h11 := digitChar_isDigit (minute / 10) (by omega)
  have h12 := digitChar_isDigit (minute % 10) (by omega)
  have h13 := digitChar_isDigit (second / 10) (by omega)
  have h14 := digitChar_isDigit (second % 10) (by omega)
  by_cases hlt : hour < 12 <;>
    simp [strftimeNow, pad2, pad4, meridiem, hlt, timestampShape,
      h1, h2, h3, h4, h5, h6, h7, h8, h9, h10, h11, h12, h13, h14]

/-- Witness for C7 at the time shown in the source's docstring,
2020-03-21 18:39:33. -/
theorem c7_timestamp_format_witness :
    lastUpdateNotes 3 21 2020 18 39 33
      = String.toList "Last update:" ++ strftimeNow 3 21 2020 18 39 33 ∧
    timestampShape (strftimeNow 3 21 2020 18 39 33) = true :=
  c7_timestamp_format 3 21 2020 18 39 33 (by decide) (by decide) (by decide)
    (by decide) (by decide) (by decide) (by decide)

lemma csvScan_afterQuote_no_comma (g : List Char) (hg : ',' ∉ g) :
    csvScan CsvMode.afterQuote g = [g] := by
  induction g with
  | nil => rfl
  | cons c g ih =>
    simp only [List.mem_cons, not_or] at hg
    have hc : c ≠ ',' := fun h => hg.1 h.symm
    simp [csvScan, hc, ih hg.2, consCur]

lemma csvScan_fieldStart_plain (g : List Char) (hq : '"' ∉ g) (hc : ',' ∉ g) :
    csvScan CsvMode.fieldStart g = [g] := by
  cases g with
  | nil => rfl
  | cons c g =>
    simp only [List.mem_cons, not_or] at hq hc
    have h1 : c ≠ '"' := fun h => hq.1 h.symm
    have h2 : c ≠ ',' := fun h => hc.1 h.symm
    simp [csvScan, h1, h2, csvScan_afterQuote_no_comma g hc.2, consCur]

lemma csvScan_quoted_cons (c : Char) (hc : c ≠ '"') (l : List Char) :
    csvScan CsvMode.quoted (c :: l) = consCur c (csvScan CsvMode.quoted l) := by
  cases l with
  | nil => simp [csvScan, hc]
  | cons c2 l2 => simp [csvScan, hc]

lemma csvScan_quoted_clean (f g : List Char) (hf : '"' ∉ f)
    (hgq : '"' ∉ g) (hgc : ',' ∉ g) :
    csvScan CsvMode.quoted (f ++ '"' :: ',' :: g) = [f, g] := by
  induction f with
  | nil =>
    simp [csvScan, csvScan_fieldStart_plain g hgq hgc]
  | cons c f ih =>
    simp only [List.mem_cons, not_or] at hf
    have hc : c ≠ '"' := fun h => hf.1 h.symm
    rw [List.cons_append, csvScan_quoted_cons c hc, ih hf.2]
    rfl

lemma parseLine_quoted_first (f g : List Char) (hf : '"' ∉ f)
    (hgq : '"' ∉ g) (hgc : ',' ∉ g) :
    parseLine ('"' :: f ++ '"' :: ',' :: g) = [f, g] := by
  have h1 : parseLine ('"' :: f ++ '"' :: ',' :: g)
      = csvScan CsvMode.fieldStart ('"' :: (f ++ '"' :: ',' :: g)) := rfl
  rw [h1]
  simp [csvScan, csvScan_quoted_clean f g hf hgq hgc]

/-- C9: the transcoding of `update_map_data` operates on the fields parsed
by `csv.reader`, not on raw line text: a line whose first field is quoted
contributes that field with its quotes stripped (its embedded commas kept),
rejoined with the remaining fields by `", "`; consequently the
transformation is not injective — the raw lines `x,y` and `"x, y"` are
distinct yet transcode identically — and CSV quoting is not preserved. -/
theorem c9_transcoding_parses_fields :
    (∀ f g : List Char, '"' ∉ f → '"' ∉ g → ',' ∉ g →
        transcodeLine ('"' :: f ++ '"' :: ',' :: g) = f ++ ',' :: ' ' :: g) ∧
    transcodeLine (String.toList "x,y") = transcodeLine (String.toList "\"x, y\"") ∧
    String.toList "x,y" ≠ String.toList "\"x, y\"" := by
  refine ⟨fun f g hf hgq hgc => ?_, by decide, by decide⟩
  rw [transcodeLine, parseLine_quoted_first f g hf hgq hgc]
  rfl

/-- Witness for C9: the line `"a,b",5` (first field quoted, containing a
comma) transcodes to `a,b, 5` — quotes stripped, fields rejoined. -/
theorem c9_transcoding_parses_fields_witness :
    transcodeLine (String.toList "\"a,b\",5")
      = String.toList "a,b, 5" :=
  c9_transcoding_parses_fields.1 (String.toList "a,b") (String.toList "5")
    (by decide) (by decide) (by decide)

/-- C2 (amended): `run_map_update` performs only the data push followed by
publish — its trace holds no create, configure or tooltip step — but
`publish_map` itself rewrites the local embed-artifact HTML file, so the
artifact write also happens on the update path whenever the publish
response carries the embed snippet. -/
theorem c2_update_steps_amended (st : MapState) (env : RemoteEnv) :
    (run_map_update st env).1
      = [Step.pushData st.mapId (updateMapDataPayload st.csvRows),
         Step.stamp st.mapId, Step.publish st.mapId]
        ++ (match env.publishResp.embedResponsive with
            | none => []
            | some _ => [Step.writeHtml]) := by
  cases hs : env.publishResp.embedResponsive <;>
    simp [run_map_update, update_map_data, publish_map,
      set_last_update_timestamp, seqStep, hs]

/-- C2 counterexample: a concrete update run with a successful publish —
the artifact file held `old-artifact` before the run and `new-embed`
after it, and the artifact write occurs in the trace, refuting the claim
that on the update path the HTML file's contents stay unchanged. -/
theorem c2_update_rewrites_artifact_cex :
    (run_map_update ⟨"m1", "m1", "old-artifact", [["CARLOW", "5"]]⟩
        ⟨⟨200, some "m2"⟩, ⟨200⟩, ⟨200⟩, ⟨200⟩, ⟨200⟩, ⟨200, some "new-embed"⟩⟩).2
      = Except.ok ⟨"m1", "m1", "new-embed", [["CARLOW", "5"]]⟩ ∧
    Step.writeHtml ∈ (run_map_update ⟨"m1", "m1", "old-artifact", [["CARLOW", "5"]]⟩
        ⟨⟨200, some "m2"⟩, ⟨200⟩, ⟨200⟩, ⟨200⟩, ⟨200⟩, ⟨200, some "new-embed"⟩⟩).1 :=
  ⟨rfl, by decide⟩

/-- C3 (amended): the `HTTPError` raised for a non-2xx status never escapes
— every call site catches and logs it, whatever the statuses are — but the
workflows only run to their final step and exit 0 when the create response
body carries an `id` and the publish response body carries the embed
snippet; a body missing those members makes the unguarded extraction raise
an uncaught error (see the counterexample). -/
theorem c3_no_http_error_escapes_amended (st : MapState) (env : RemoteEnv)
    (hc : env.createResp.idField.isSome = true)
    (hp : env.publishResp.embedResponsive.isSome = true) :
    processExit (run_map_creation st env).2 = 0 ∧
    Step.writeHtml ∈ (run_map_creation st env).1 ∧
    processExit (run_map_update st env).2 = 0 ∧
    Step.writeHtml ∈ (run_map_update st env).1 := by
  obtain ⟨i, hi⟩ := Option.isSome_iff_exists.mp hc
  obtain ⟨s, hs⟩ := Option.isSome_iff_exists.mp hp
  simp [run_map_creation, run_map_update, create_choropleth,
    configure_map_settings, add_map_tooltip, update_map_data, publish_map,
    set_last_update_timestamp, seqStep, set_map_id, processExit, hi, hs]

/-- Witness for C3 (amended): a run against all-successful responses whose
bodies carry the expected members. -/
theorem c3_no_http_error_escapes_amended_witness :
    processExit (run_map_creation ⟨"m1", "m1", "old", [["CARLOW", "5"]]⟩
        ⟨⟨200, some "m2"⟩, ⟨200⟩, ⟨200⟩, ⟨200⟩, ⟨200⟩, ⟨200, some "snip"⟩⟩).2 = 0 ∧
    Step.writeHtml ∈ (run_map_creation ⟨"m1", "m1", "old", [["CARLOW", "5"]]⟩
        ⟨⟨200, some "m2"⟩, ⟨200⟩, ⟨200⟩, ⟨200⟩, ⟨200⟩, ⟨200, some "snip"⟩⟩).1 ∧
    processExit (run_map_update ⟨"m1", "m1", "old", [["CARLOW", "5"]]⟩
        ⟨⟨200, some "m2"⟩, ⟨200⟩, ⟨200⟩, ⟨200⟩, ⟨200⟩, ⟨200, some "snip"⟩⟩).2 = 0 ∧
    Step.writeHtml ∈ (run_map_update ⟨"m1", "m1", "old", [["CARLOW", "5"]]⟩
        ⟨⟨200, some "m2"⟩, ⟨200⟩, ⟨200⟩, ⟨200⟩, ⟨200⟩, ⟨200, some "snip"⟩⟩).1 :=
  c3_no_http_error_escapes_amended ⟨"m1", "m1", "old", [["CARLOW", "5"]]⟩
    ⟨⟨200, some "m2"⟩, ⟨200⟩, ⟨200⟩, ⟨200⟩, ⟨200⟩, ⟨200, some "snip"⟩⟩
    (by decide) (by decide)

/-- C3 counterexample: with every remote call failing (status 500, error
bodies without the members the code extracts) the update workflow raises an
uncaught `KeyError` at the embed extraction, never reaches its final step
(the artifact write), and the process exits nonzero. -/
theorem c3_failing_calls_crash_cex :
    processExit (run_map_update ⟨"m1", "m1", "old", [["CARLOW", "5"]]⟩
        ⟨⟨500, none⟩, ⟨500⟩, ⟨500⟩, ⟨500⟩, ⟨500⟩, ⟨500, none⟩⟩).2 = 1 ∧
    (run_map_update ⟨"m1", "m1", "old", [["CARLOW", "5"]]⟩
        ⟨⟨500, none⟩, ⟨500⟩, ⟨500⟩, ⟨500⟩, ⟨500⟩, ⟨500, none⟩⟩).1
      = [Step.pushData "m1" "CARLOW, 5\n", Step.stamp "m1", Step.publish "m1"] :=
  ⟨rfl, rfl⟩

/-- C4 (amended): when the create call returns a non-success status the
`HTTPError` is caught and logged, and — provided the failure response body
still carries an `id` member — `run_map_creation` goes on to attempt every
subsequent step (configure, tooltip, data push, publish) against that
identifier; when the failure body lacks `id` the unguarded extraction
raises and no subsequent step runs (see the counterexample). -/
theorem c4_failed_create_with_id_continues_amended (st : MapState)
    (env : RemoteEnv) (i : String) (hfail : 400 ≤ env.createResp.status)
    (hid : env.createResp.idField = some i) :
    Step.configure i ∈ (run_map_creation st env).1 ∧
    Step.tooltip i ∈ (run_map_creation st env).1 ∧
    Step.pushData i (updateMapDataPayload st.csvRows)
      ∈ (run_map_creation st env).1 ∧
    Step.publish i ∈ (run_map_creation st env).1 := by
  cases hs : env.publishResp.embedResponsive <;>
    simp [run_map_creation, create_choropleth, configure_map_settings,
      add_map_tooltip, update_map_data, publish_map,
      set_last_update_timestamp, seqStep, set_map_id, hid, hs]

/-- Witness for C4 (amended): a 500 create response whose body still
carries an `id`. -/
theorem c4_failed_create_with_id_continues_amended_witness :
    Step.configure "m9" ∈ (run_map_creation ⟨"m1", "m1", "old", [["CARLOW", "5"]]⟩
        ⟨⟨500, some "m9"⟩, ⟨200⟩, ⟨200⟩, ⟨200⟩, ⟨200⟩, ⟨200, some "snip"⟩⟩).1 ∧
    Step.tooltip "m9" ∈ (run_map_creation ⟨"m1", "m1", "old", [["CARLOW", "5"]]⟩
        ⟨⟨500, some "m9"⟩, ⟨200⟩, ⟨200⟩, ⟨200⟩, ⟨200⟩, ⟨200, some "snip"⟩⟩).1 ∧
    Step.pushData "m9" (updateMapDataPayload [["CARLOW", "5"]])
      ∈ (run_map_creation ⟨"m1", "m1", "old", [["CARLOW", "5"]]⟩
        ⟨⟨500, some "m9"⟩, ⟨200⟩, ⟨200⟩, ⟨200⟩, ⟨200⟩, ⟨200, some "snip"⟩⟩).1 ∧
    Step.publish "m9" ∈ (run_map_creation ⟨"m1", "m1", "old", [["CARLOW", "5"]]⟩
        ⟨⟨500, some "m9"⟩, ⟨200⟩, ⟨200⟩, ⟨200⟩, ⟨200⟩, ⟨200, some "snip"⟩⟩).1 :=
  c4_failed_create_with_id_continues_amended ⟨"m1", "m1", "old", [["CARLOW", "5"]]⟩
    ⟨⟨500, some "m9"⟩, ⟨200⟩, ⟨200⟩, ⟨200⟩, ⟨200⟩, ⟨200, some "snip"⟩⟩ "m9"
    (by decide) (by decide)

/-- C4 counterexample: a create call failing with a 404 whose error body
has no `id` member — the run crashes at the create step (uncaught
`KeyError`) and attempts none of the subsequent steps. -/
theorem c4_failed_create_aborts_cex :
    (run_map_creation ⟨"m1", "m1", "old", [["CARLOW", "5"]]⟩
        ⟨⟨404, none⟩, ⟨200⟩, ⟨200⟩, ⟨200⟩, ⟨200⟩, ⟨200, some "snip"⟩⟩).1
      = [Step.create] ∧
    (run_map_creation ⟨"m1", "m1", "old", [["CARLOW", "5"]]⟩
        ⟨⟨404, none⟩, ⟨200⟩, ⟨200⟩, ⟨200⟩, ⟨200⟩, ⟨200, some "snip"⟩⟩).2
      = Except.error PyErr.keyError :=
  ⟨rfl, rfl⟩

/-- C5: after every successful create call, the identifier persisted in the
configuration store equals the `id` of the create response body, and a
later update invocation (constructed from that store) addresses every call
to that same identifier without ever issuing a create. -/
theorem c5_persisted_id_reused (st : MapState) (env env2 : RemoteEnv)
    (i htmlFile : String) (rows : List (List String))
    (hok : 200 ≤ env.createResp.status ∧ env.createResp.status < 300)
    (hid : env.createResp.idField = some i) :
    (create_choropleth st env).2
      = Except.ok { st with mapId := i, configMapId := i } ∧
    Step.create ∉ (run_map_update (initFromConfig i htmlFile rows) env2).1 ∧
    (run_map_update (initFromConfig i htmlFile rows) env2).1
      = [Step.pushData i (updateMapDataPayload rows), Step.stamp i,
         Step.publish i]
        ++ (match env2.publishResp.embedResponsive with
            | none => []
            | some _ => [Step.writeHtml]) := by
  refine ⟨?_, ?_, ?_⟩
  · simp [create_choropleth, hid, set_map_id]
  · cases hs : env2.publishResp.embedResponsive <;>
      simp [run_map_update, update_map_data, publish_map,
        set_last_update_timestamp, seqStep, initFromConfig, hs]
  · cases hs : env2.publishResp.embedResponsive <;>
      simp [run_map_update, update_map_data, publish_map,
        set_last_update_timestamp, seqStep, initFromConfig, hs]

/-- Witness for C5: a 201 create response with identifier `newmap`,
followed by an update run against an all-successful environment. -/
theorem c5_persisted_id_reused_witness :
    (create_choropleth ⟨"m1", "m1", "old", [["CARLOW", "5"]]⟩
        ⟨⟨201, some "newmap"⟩, ⟨200⟩, ⟨200⟩, ⟨200⟩, ⟨200⟩, ⟨200, some "snip"⟩⟩).2
      = Except.ok ⟨"newmap", "newmap", "old", [["CARLOW", "5"]]⟩ ∧
    Step.create ∉ (run_map_update (initFromConfig "newmap" "old" [["CARLOW", "5"]])
        ⟨⟨200, none⟩, ⟨200⟩, ⟨200⟩, ⟨200⟩, ⟨200⟩, ⟨200, some "snip2"⟩⟩).1 ∧
    (run_map_update (initFromConfig "newmap" "old" [["CARLOW", "5"]])
        ⟨⟨200, none⟩, ⟨200⟩, ⟨200⟩, ⟨200⟩, ⟨200⟩, ⟨200, some "snip2"⟩⟩).1
      = [Step.pushData "newmap" (updateMapDataPayload [["CARLOW", "5"]]),
         Step.stamp "newmap", Step.publish "newmap"] ++ [Step.writeHtml] :=
  c5_persisted_id_reused ⟨"m1", "m1", "old", [["CARLOW", "5"]]⟩
    ⟨⟨201, some "newmap"⟩, ⟨200⟩, ⟨200⟩, ⟨200⟩, ⟨200⟩, ⟨200, some "snip"⟩⟩
    ⟨⟨200, none⟩, ⟨200⟩, ⟨200⟩, ⟨200⟩, ⟨200⟩, ⟨200, some "snip2"⟩⟩
    "newmap" "old" [["CARLOW", "5"]] (by decide) (by decide)

/-- C6: in every execution of `run_map_creation` the performed steps are an
initial segment of the fixed sequence create, configure, tooltip, data
push, timestamp stamp, publish, artifact write — so create always precedes
configure, tooltip and the data push, and the artifact write only ever
follows publish immediately — whatever each individual call returns. -/
theorem c6_step_order_fixed (st : MapState) (env : RemoteEnv) :
    ∃ i t, (run_map_creation st env).1 ++ t
        = [Step.create, Step.configure i, Step.tooltip i,
           Step.pushData i (updateMapDataPayload st.csvRows),
           Step.stamp i, Step.publish i, Step.writeHtml] ∧
      (run_map_creation st env).1.head? = some Step.create := by
  cases hc : env.createResp.idField with
  | none =>
    refine ⟨"", [Step.configure "", Step.tooltip "",
      Step.pushData "" (updateMapDataPayload st.csvRows), Step.stamp "",
      Step.publish "", Step.writeHtml], ?_, ?_⟩ <;>
      simp [run_map_creation, create_choropleth, seqStep, hc]
  | some i =>
    cases hs : env.publishResp.embedResponsive with
    | none =>
      refine ⟨i, [Step.writeHtml], ?_, ?_⟩ <;>
        simp [run_map_creation, create_choropleth, configure_map_settings,
          add_map_tooltip, update_map_data, publish_map,
          set_last_update_timestamp, seqStep, set_map_id, hc, hs]
    | some s =>
      refine ⟨i, [], ?_, ?_⟩ <;>
        simp [run_map_creation, create_choropleth, configure_map_settings,
          add_map_tooltip, update_map_data, publish_map,
          set_last_update_timestamp, seqStep, set_map_id, hc, hs]

/-- C8: for every mode argument other than `create` and `update`, the
program issues no network call, takes no map action (local state is
untouched) and exits 0. -/
theorem c8_unknown_mode_noop (mode : String) (st : MapState)
    (env : RemoteEnv) (h1 : mode ≠ "create") (h2 : mode ≠ "update") :
    mainRun mode st env = ([], Except.ok st) ∧
    processExit (mainRun mode st env).2 = 0 := by
  simp [mainRun, h1, h2, processExit]

/-- Witness for C8 at the unrecognized mode `frobnicate`. -/
theorem c8_unknown_mode_noop_witness :
    mainRun "frobnicate" ⟨"m1", "m1", "old", [["CARLOW", "5"]]⟩
        ⟨⟨200, some "m2"⟩, ⟨200⟩, ⟨200⟩, ⟨200⟩, ⟨200⟩, ⟨200, some "snip"⟩⟩
      = ([], Except.ok ⟨"m1", "m1", "old", [["CARLOW", "5"]]⟩) ∧
    processExit (mainRun "frobnicate" ⟨"m1", "m1", "old", [["CARLOW", "5"]]⟩
        ⟨⟨200, some "m2"⟩, ⟨200⟩, ⟨200⟩, ⟨200⟩, ⟨200⟩, ⟨200, some "snip"⟩⟩).2 = 0 :=
  c8_unknown_mode_noop "frobnicate" ⟨"m1", "m1", "old", [["CARLOW", "5"]]⟩
    ⟨⟨200, some "m2"⟩, ⟨200⟩, ⟨200⟩, ⟨200⟩, ⟨200⟩, ⟨200, some "snip"⟩⟩
    (by decide) (by decide)

/-- C10: only the create operation mutates the persisted map identifier —
configure, tooltip, data push and timestamp stamp leave the whole local
state untouched, and publish preserves both the in-memory `map_id` and the
configuration store's `MAP_ID` entry (it rewrites only the HTML
artifact). -/
theorem c10_only_create_mutates_id (st : MapState) (env : RemoteEnv) :
    (configure_map_settings st env).2 = Except.ok st ∧
    (add_map_tooltip st env).2 = Except.ok st ∧
    (update_map_data st env).2 = Except.ok st ∧
    (set_last_update_timestamp st env).2 = Except.ok st ∧
    ∀ st', (publish_map st env).2 = Except.ok st' →
      st'.mapId = st.mapId ∧ st'.configMapId = st.configMapId := by
  refine ⟨rfl, rfl, rfl, rfl, fun st' h => ?_⟩
  cases hs : env.publishResp.embedResponsive <;>
    simp [publish_map, set_last_update_timestamp, seqStep, hs] at h
  rw [← h]
  exact ⟨rfl, rfl⟩

/-- Witness for C10: concrete run where publish succeeds; both identifier
fields of the post-publish state equal those of the pre-publish state. -/
theorem c10_only_create_mutates_id_witness :
    (configure_map_settings ⟨"m1", "m7", "old", [["CARLOW", "5"]]⟩
        ⟨⟨200, some "m2"⟩, ⟨200⟩, ⟨200⟩, ⟨200⟩, ⟨200⟩, ⟨200, some "snip"⟩⟩).2
      = Except.ok ⟨"m1", "m7", "old", [["CARLOW", "5"]]⟩ ∧
    (add_map_tooltip ⟨"m1", "m7", "old", [["CARLOW", "5"]]⟩
        ⟨⟨200, some "m2"⟩, ⟨200⟩, ⟨200⟩, ⟨200⟩, ⟨200⟩, ⟨200, some "snip"⟩⟩).2
      = Except.ok ⟨"m1", "m7", "old", [["CARLOW", "5"]]⟩ ∧
    (update_map_data ⟨"m1", "m7", "old", [["CARLOW", "5"]]⟩
        ⟨⟨200, some "m2"⟩, ⟨200⟩, ⟨200⟩, ⟨200⟩, ⟨200⟩, ⟨200, some "snip"⟩⟩).2
      = Except.ok ⟨"m1", "m7", "old", [["CARLOW", "5"]]⟩ ∧
    (set_last_update_timestamp ⟨"m1", "m7", "old", [["CARLOW", "5"]]⟩
        ⟨⟨200, some "m2"⟩, ⟨200⟩, ⟨200⟩, ⟨200⟩, ⟨200⟩, ⟨200, some "snip"⟩⟩).2
      = Except.ok ⟨"m1", "m7", "old", [["CARLOW", "5"]]⟩ ∧
    ((⟨"m1", "m7", "snip", [["CARLOW", "5"]]⟩ : MapState).mapId
        = (⟨"m1", "m7", "old", [["CARLOW", "5"]]⟩ : MapState).mapId ∧
      (⟨"m1", "m7", "snip", [["CARLOW", "5"]]⟩ : MapState).configMapId
        = (⟨"m1", "m7", "old", [["CARLOW", "5"]]⟩ : MapState).configMapId) := by
  have h := c10_only_create_mutates_id ⟨"m1", "m7", "old", [["CARLOW", "5"]]⟩
    ⟨⟨200, some "m2"⟩, ⟨200⟩, ⟨200⟩, ⟨200⟩, ⟨200⟩, ⟨200, some "snip"⟩⟩
  exact ⟨h.1, h.2.1, h.2.2.1, h.2.2.2.1,
    h.2.2.2.2 ⟨"m1", "m7", "snip", [["CARLOW", "5"]]⟩ rfl⟩

end MapWorker
